import Mathlib

/-!
Shallow embedding of the AltWalker2 live-viewer frontend.

The embedded code:
* `GraphVisualizer` (graph.js): model normalization (`convertModelsToG6Data`),
  rendering (`setModels` / `renderGraph`), per-run state (`visitCounts`,
  `currentStepId`, `failedStepId`) and its mutators (`updateStep`,
  `updateElementColor`, `highlightElement`, `markElementAsFailed`, `clear`).
* main.js: the five inbound message handlers (`handleStartMessage`,
  `handleStepStartMessage`, `handleStepEndMessage`, `handleEndMessage`,
  `handleErrorMessage`).
* ui.js `UIManager`: the DOM fields the handlers write (text content only;
  CSS class strings, which are pure presentation, are not modeled).
* websocket.js `WebSocketClient`: `onmessage` parsing / dispatch
  (`processPayload`, `handleMessage`).

Modeling conventions:
* JavaScript `undefined`-able fields become `Option`; `a || b` on strings
  becomes `jsOr` (both `undefined` and `""` are falsy); `n || 0` on numbers
  becomes `natOrZero` (`0` is falsy, so the result agrees with `getD 0`).
* The JS `visitCounts` object is a total function `String → Nat`; a key is
  absent iff its value is `0` (the code only ever stores values `≥ 1`, via
  `(visitCounts[id] || 0) + 1`).
* The external G6 graph surface is modeled by the list of rendered items
  (`rendered`); `graph.findById` is a lookup by item id, `graph.updateItem`
  updates the item(s) with the given id.  The item style fields kept are the
  ones the code mutates: fill (for edges: the arrow fill), stroke, lineWidth
  and the shadow toggle (`shadowColor`/`shadowBlur` are set together and only
  ever to the fixed highlight values, so they are one `Bool`).
* All embedded functions are total, mirroring the source: every property
  access on a possibly-missing value is guarded (`?.`, `||`, `if (!x)`), so
  none of these paths throws.
-/

/-- JavaScript `a || b` for an optional string: `undefined` and `""` are falsy. -/
def jsOr (o : Option String) (d : String) : String :=
  match o with
  | none => d
  | some s => if s.isEmpty then d else s

/-- JavaScript truthiness of an optional string. -/
def strTruthy : Option String → Bool
  | none => false
  | some s => !s.isEmpty

/-- JavaScript `n || 0` for an optional number (`0` is itself falsy, so this
agrees with defaulting to `0`). -/
def natOrZero (o : Option Nat) : Nat := o.getD 0

/-- A vertex of a raw GraphWalker model (`{id, name?}`). -/
structure Vertex where
  id : String
  name : Option String := none
deriving DecidableEq

/-- An edge of a raw GraphWalker model
(`{id, name?, sourceVertexId, targetVertexId}`). -/
structure EdgeDef where
  id : String
  name : Option String := none
  sourceVertexId : String
  targetVertexId : String
deriving DecidableEq

/-- A sub-model: `{name?, vertices?, edges?}`. -/
structure SubModel where
  name : Option String := none
  vertices : Option (List Vertex) := none
  edges : Option (List EdgeDef) := none
deriving DecidableEq

/-- A model container as consumed by `convertModelsToG6Data`: it may carry a
nested `models` collection, or itself be a flat sub-model (the code duck-types
this via `model.models || [model]`). -/
structure ModelContainer where
  name : Option String := none
  models : Option (List SubModel) := none
  vertices : Option (List Vertex) := none
  edges : Option (List EdgeDef) := none
deriving DecidableEq

/-- Reading a container as the single sub-model `[model]`
(graph.js line 145, the `|| [model]` branch). -/
def ModelContainer.asSubModel (c : ModelContainer) : SubModel :=
  { name := c.name, vertices := c.vertices, edges := c.edges }

/-- `const actualModels = model.models || [model]` (graph.js line 145).
Note that an explicitly empty `models: []` array is truthy in JS, hence kept. -/
def ModelContainer.actualModels (c : ModelContainer) : List SubModel :=
  c.models.getD [c.asSubModel]

/-- A node produced by `convertModelsToG6Data`.  The constant fields pushed by
the code (`type: 'rect'`, the initial white/blue style) are applied at render
time (`renderNode`). -/
structure G6Node where
  id : String
  label : String
  originalId : String
  modelName : String
deriving DecidableEq

/-- An edge produced by `convertModelsToG6Data`. -/
structure G6Edge where
  id : String
  source : String
  target : String
  label : String
  originalId : String
  modelName : String
deriving DecidableEq

/-- Vertex conversion (graph.js lines 156-169): the G6 id and label are
`vertex.name || vertex.id`. -/
def convertVertex (modelName : String) (v : Vertex) : G6Node :=
  { id := jsOr v.name v.id
    label := jsOr v.name v.id
    originalId := v.id
    modelName := modelName }

/-- Edge conversion (graph.js lines 177-190): endpoints are resolved against
the same sub-model's vertices by raw id
(`actualModel.vertices?.find(v => v.id === edge.sourceVertexId)`), and
`sourceVertex?.name || edge.sourceVertexId` falls back to the raw reference
when no vertex matches (or the matched vertex has no usable name). -/
def convertEdge (modelName : String) (sm : SubModel) (e : EdgeDef) : G6Edge :=
  let sourceVertex := (sm.vertices.getD []).find? fun v => v.id == e.sourceVertexId
  let targetVertex := (sm.vertices.getD []).find? fun v => v.id == e.targetVertexId
  { id := jsOr e.name e.id
    source := jsOr (sourceVertex.bind Vertex.name) e.sourceVertexId
    target := jsOr (targetVertex.bind Vertex.name) e.targetVertexId
    label := jsOr e.name ""
    originalId := e.id
    modelName := modelName }

/-- `GraphVisualizer.convertModelsToG6Data` (graph.js lines 131-201): for each
container, `modelName = model.name || 'default'`; iterate
`model.models || [model]`; missing `vertices`/`edges` are treated as empty.
Nodes and edges are pushed into two separate arrays in traversal order. -/
def GraphVisualizer.convertModelsToG6Data (models : List ModelContainer) :
    List G6Node × List G6Edge :=
  (models.flatMap fun c =>
     c.actualModels.flatMap fun sm =>
       (sm.vertices.getD []).map (convertVertex (jsOr c.name "default")),
   models.flatMap fun c =>
     c.actualModels.flatMap fun sm =>
       (sm.edges.getD []).map (convertEdge (jsOr c.name "default") sm))

/-- A rendered G6 item (node or edge) with the mutable style state the code
touches.  For an edge, `fill` is the arrow-head fill (always set together with
the stroke by this code) and `stroke` the line stroke. -/
structure RenderedItem where
  id : String
  isNode : Bool
  fill : String
  stroke : String
  lineWidth : Nat
  shadowOn : Bool
deriving DecidableEq

/-- Initial rendered style of a node: the pushed per-node style
`fill '#ffffff', stroke '#5B8FF9'` plus the `defaultNode` line width 2. -/
def renderNode (n : G6Node) : RenderedItem :=
  { id := n.id, isNode := true, fill := "#ffffff", stroke := "#5B8FF9"
    lineWidth := 2, shadowOn := false }

/-- Initial rendered style of an edge: `defaultEdge` stroke `#94a3b8`,
line width 2, arrow fill `#94a3b8`. -/
def renderEdge (e : G6Edge) : RenderedItem :=
  { id := e.id, isNode := false, fill := "#94a3b8", stroke := "#94a3b8"
    lineWidth := 2, shadowOn := false }

/-- `graph.data(graphData); graph.render()`: the displayed items are rebuilt
wholesale from the converted data, with fresh (un-highlighted) styles. -/
def renderItems (d : List G6Node × List G6Edge) : List RenderedItem :=
  d.1.map renderNode ++ d.2.map renderEdge

/-- The mutable state of a `GraphVisualizer` instance (after `initialize()`,
`hasGraph` is true; it is false only before the G6 graph is constructed). -/
structure VisualizerState where
  hasGraph : Bool
  models : List ModelContainer
  rendered : List RenderedItem
  visitCounts : String → Nat
  currentStepId : Option String
  failedStepId : Option String

/-- `graph.findById(id)`: look the id up among the rendered items. -/
def VisualizerState.findById (st : VisualizerState) (id : String) :
    Option RenderedItem :=
  st.rendered.find? fun a => a.id == id

/-- `graph.updateItem(id, cfg)`: apply a style update to the item(s) with the
given id, leaving every other item untouched. -/
def updateItems (id : String) (f : RenderedItem → RenderedItem)
    (l : List RenderedItem) : List RenderedItem :=
  l.map fun a => if a.id == id then f a else a

/-- The common source pattern
`const item = findById(id); if (!item) return; if (node) updateItem(styleN)
else if (edge) updateItem(styleE)`: a no-op when the id does not resolve,
otherwise a style update chosen by the found item's type. -/
def VisualizerState.applyStyle (st : VisualizerState) (id : String)
    (fn fe : RenderedItem → RenderedItem) : VisualizerState :=
  match st.findById id with
  | none => st
  | some item =>
    { st with rendered := updateItems id (if item.isNode then fn else fe) st.rendered }

/-- The style written by `highlightElement` (graph.js lines 291-307): line
width 4 and the blue shadow when highlighting, line width 2 and no shadow
otherwise.  The node and edge branches of the source write identical styles. -/
def hlUpd (highlight : Bool) (a : RenderedItem) : RenderedItem :=
  { a with lineWidth := if highlight then 4 else 2, shadowOn := highlight }

/-- Visit-count recolor of a node: `fill: color, stroke: color`. -/
def colorUpdNode (color : String) (a : RenderedItem) : RenderedItem :=
  { a with fill := color, stroke := color }

/-- Visit-count recolor of an edge: `stroke: color`, arrow fill `color`. -/
def colorUpdEdge (color : String) (a : RenderedItem) : RenderedItem :=
  { a with stroke := color, fill := color }

/-- Failure recolor of a node: `fill: '#ef4444', stroke: '#dc2626'`. -/
def failUpdNode (a : RenderedItem) : RenderedItem :=
  { a with fill := "#ef4444", stroke := "#dc2626" }

/-- Failure recolor of an edge: `stroke: '#ef4444'`, arrow fill `'#ef4444'`. -/
def failUpdEdge (a : RenderedItem) : RenderedItem :=
  { a with stroke := "#ef4444", fill := "#ef4444" }

/-- The d3 visit-count color scale (graph.js lines 16-19):
`d3.scaleLinear().domain([0, 5]).range(['#d1f4e0', '#10b981']).clamp(true)`,
i.e. linear RGB interpolation from `rgb(209, 244, 224)` to `rgb(16, 185, 129)`
at parameter `t = min(count, 5) / 5`, each channel rounded and formatted by
d3-color as `"rgb(r, g, b)"`.  `Math.round(a + (b - a) * s / 5)` is computed
exactly in integers as `(10a + 2(b - a)s + 5) / 10` (the numerators are
positive, so Int division is the floor, and `round x = floor (x + 1/2)`; no
channel value here falls on a rounding tie, so this agrees with the source's
floating-point computation). -/
def GraphVisualizer.colorScale (n : Nat) : String :=
  let s : Int := min (n : Int) 5
  let chan := fun (a b : Int) => (10 * a + 2 * (b - a) * s + 5) / 10
  "rgb(" ++ toString (chan 209 16) ++ ", " ++ toString (chan 244 185) ++ ", " ++
    toString (chan 224 129) ++ ")"

/-- `GraphVisualizer.highlightElement` (graph.js lines 287-308). -/
def GraphVisualizer.highlightElement (st : VisualizerState) (elementId : String)
    (highlight : Bool) : VisualizerState :=
  st.applyStyle elementId (hlUpd highlight) (hlUpd highlight)

/-- `GraphVisualizer.updateElementColor` (graph.js lines 260-285): the color is
computed from `visitCounts[elementId] || 0` before the item lookup. -/
def GraphVisualizer.updateElementColor (st : VisualizerState)
    (elementId : String) : VisualizerState :=
  let color := GraphVisualizer.colorScale (st.visitCounts elementId)
  st.applyStyle elementId (colorUpdNode color) (colorUpdEdge color)

/-- `GraphVisualizer.markElementAsFailed` (graph.js lines 310-334).  Note that
`this.failedStepId = elementId` is executed BEFORE the `findById` lookup, so
the field is written even when the id does not resolve. -/
def GraphVisualizer.markElementAsFailed (st : VisualizerState)
    (elementId : String) : VisualizerState :=
  let st1 := { st with failedStepId := some elementId }
  st1.applyStyle elementId failUpdNode failUpdEdge

/-- `(this.visitCounts[stepId] || 0) + 1` (graph.js line 243). -/
def bumpCount (f : String → Nat) (id : String) : String → Nat :=
  fun i => if i = id then f i + 1 else f i

/-- Lines 242-247 of graph.js: increment the visit count of `stepId` and make
it the current step. -/
def GraphVisualizer.visitStep (st : VisualizerState) (stepId : String) :
    VisualizerState :=
  { st with visitCounts := bumpCount st.visitCounts stepId
            currentStepId := some stepId }

/-- `GraphVisualizer.updateStep` (graph.js lines 203-258).  Guards: no graph
instance, falsy (empty) `stepId`, or an id `findById` cannot resolve, each
return early with no state change.  On success: un-highlight the previous
current step (when truthy), increment the visit count, set the new current
step, recolor it, highlight it.  The second component records the
`highlightElement(id, on)` invocations in order, for the call-sequencing
claims. -/
def GraphVisualizer.updateStep (st : VisualizerState) (stepId : String) :
    VisualizerState × List (String × Bool) :=
  if st.hasGraph = false then (st, [])
  else if stepId.isEmpty then (st, [])
  else
    match st.findById stepId with
    | none => (st, [])
    | some _ =>
      let p :=
        if strTruthy st.currentStepId then
          (GraphVisualizer.highlightElement st (st.currentStepId.getD "") false,
           [(st.currentStepId.getD "", false)])
        else (st, ([] : List (String × Bool)))
      let st3 := GraphVisualizer.visitStep p.1 stepId
      let st4 := GraphVisualizer.updateElementColor st3 stepId
      let st5 := GraphVisualizer.highlightElement st4 stepId true
      (st5, p.2 ++ [(stepId, true)])

/-- `GraphVisualizer.renderGraph` (graph.js lines 109-129): early return when
there is no graph instance or no models; otherwise rebuild the displayed
items from the converted data. -/
def GraphVisualizer.renderGraph (st : VisualizerState) : VisualizerState :=
  if !st.hasGraph || st.models.isEmpty then st
  else { st with rendered := renderItems (GraphVisualizer.convertModelsToG6Data st.models) }

/-- `GraphVisualizer.setModels` (graph.js lines 100-107): store the models,
reset `visitCounts`/`currentStepId`/`failedStepId`, re-render. -/
def GraphVisualizer.setModels (st : VisualizerState)
    (modelsData : List ModelContainer) : VisualizerState :=
  GraphVisualizer.renderGraph
    { st with models := modelsData, visitCounts := fun _ => 0
              currentStepId := none, failedStepId := none }

/-- `GraphVisualizer.clear` (graph.js lines 354-361): empty the displayed
graph and reset the per-run state (the stored `models` are kept). -/
def GraphVisualizer.clear (st : VisualizerState) : VisualizerState :=
  { st with rendered := [], visitCounts := fun _ => 0
            currentStepId := none, failedStepId := none }

/-- An inbound `step` payload (`{id?, name?, modelName?, data?}`); `data` is
kept as its serialized form, which is all the UI uses. -/
structure Step where
  id : Option String := none
  name : Option String := none
  modelName : Option String := none
  data : Option String := none
deriving DecidableEq

/-- An inbound error payload (`{message?, trace?}`). -/
structure ErrorInfo where
  message : Option String := none
  trace : Option String := none
deriving DecidableEq

/-- An inbound `step-end` result (`{id?, output?, error?}`). -/
structure StepResult where
  id : Option String := none
  output : Option String := none
  error : Option ErrorInfo := none
deriving DecidableEq

/-- The statistics record of an inbound `end` message; `status` is merged in
by `handleEndMessage` before display. -/
structure Statistics where
  status : Option Bool := none
  totalNumberOfModels : Option Nat := none
  totalCompletedNumberOfModels : Option Nat := none
  totalFailedNumberOfModels : Option Nat := none
  edgeCoverage : Option Nat := none
  totalNumberOfVisitedEdges : Option Nat := none
  totalNumberOfUnvisitedEdges : Option Nat := none
  vertexCoverage : Option Nat := none
  totalNumberOfVisitedVertices : Option Nat := none
  totalNumberOfUnvisitedVertices : Option Nat := none
deriving DecidableEq

/-- A successfully parsed inbound message, by `type`.  `other` stands for any
type outside the five for which `setupWebSocketHandlers` registers a handler
(`messageHandlers` is keyed exactly by these five type strings and `on()`
refuses any other key via `hasOwnProperty`). -/
inductive InMessage where
  | start (models : Option (List ModelContainer))
  | stepStart (step : Step)
  | stepEnd (result : StepResult)
  | runEnd (status : Bool) (statistics : Option Statistics)
  | errorMsg (message : Option String) (trace : Option String) (step : Option Step)
  | other (type : String)
deriving DecidableEq

/-- The DOM fields written by `UIManager` (text/value content only). -/
structure UIState where
  outputText : String := ""
  errorMessage : String := ""
  errorTrace : String := ""
  setupOverlayHidden : Bool := false
  errorAlertHidden : Bool := false
  currentStepShown : Bool := false
  statisticsShown : Bool := false
  stepName : String := ""
  stepId : String := ""
  stepModel : String := ""
  stepData : String := ""
  statsStatus : String := ""
  statsModelsTotal : String := ""
  statsModelsCompleted : String := ""
  statsModelsFailed : String := ""
  statsEdgeCoverage : String := ""
  statsEdgesVisited : String := ""
  statsEdgesUnvisited : String := ""
  statsVertexCoverage : String := ""
  statsVerticesVisited : String := ""
  statsVerticesUnvisited : String := ""
deriving DecidableEq

/-- `UIManager.updateStepInfo` (ui.js lines 175-180); a missing `data` shows
the literal two-character empty-object text. -/
def UIManager.updateStepInfo (ui : UIState) (step : Step) : UIState :=
  { ui with stepName := jsOr step.name "", stepId := jsOr step.id ""
            stepModel := jsOr step.modelName ""
            stepData := (step.data).getD "\x7b\x7d" }

/-- `UIManager.appendOutput` (ui.js lines 182-188), text side only. -/
def UIManager.appendOutput (ui : UIState) (text : String) : UIState :=
  { ui with outputText := ui.outputText ++ text ++ "\n" }

/-- `UIManager.updateError` (ui.js lines 194-197). -/
def UIManager.updateError (ui : UIState) (message trace : String) : UIState :=
  { ui with errorMessage := message, errorTrace := trace }

/-- `UIManager.updateStatistics` (ui.js lines 204-233): every numeric field is
displayed as `value || 0`; the two coverage figures additionally get a `%`
suffix, through the identical code path. -/
def UIManager.updateStatistics (ui : UIState) (statistics : Statistics) : UIState :=
  let ui1 :=
    match statistics.status with
    | none => ui
    | some b => { ui with statsStatus := if b then "Passed" else "Failed" }
  { ui1 with
    statsModelsTotal := toString (natOrZero statistics.totalNumberOfModels)
    statsModelsCompleted := toString (natOrZero statistics.totalCompletedNumberOfModels)
    statsModelsFailed := toString (natOrZero statistics.totalFailedNumberOfModels)
    statsEdgeCoverage := toString (natOrZero statistics.edgeCoverage) ++ "%"
    statsEdgesVisited := toString (natOrZero statistics.totalNumberOfVisitedEdges)
    statsEdgesUnvisited := toString (natOrZero statistics.totalNumberOfUnvisitedEdges)
    statsVertexCoverage := toString (natOrZero statistics.vertexCoverage) ++ "%"
    statsVerticesVisited := toString (natOrZero statistics.totalNumberOfVisitedVertices)
    statsVerticesUnvisited := toString (natOrZero statistics.totalNumberOfUnvisitedVertices) }

/-- The application state touched by the message handlers. -/
structure AppState where
  vis : VisualizerState
  ui : UIState
  isRunning : Bool
  wsConnected : Bool

/-- `handleStartMessage` (main.js lines 93-130): hide the setup overlay, clear
output/error, switch panels, and load the models into the graph only when
`message.models && message.models.length > 0`. -/
def handleStartMessage (s : AppState)
    (models : Option (List ModelContainer)) : AppState :=
  let ui := { s.ui with setupOverlayHidden := true, errorAlertHidden := true
                        outputText := "", errorMessage := "", errorTrace := ""
                        currentStepShown := true, statisticsShown := false }
  let vis :=
    match models with
    | some ms => if ms.length > 0 then GraphVisualizer.setModels s.vis ms else s.vis
    | none => s.vis
  { s with ui := ui, vis := vis, isRunning := true }

/-- The element identifier a `step-start` event is dispatched with
(main.js lines 146-167): `step.id` when truthy, else `step.name` when truthy,
else none (the event then updates no graph element). -/
def stepEventId (step : Step) : Option String :=
  if strTruthy step.id then step.id
  else if strTruthy step.name then step.name
  else none

/-- `handleStepStartMessage` (main.js lines 133-168). -/
def handleStepStartMessage (s : AppState) (step : Step) : AppState :=
  let ui := UIManager.updateStepInfo s.ui step
  let vis :=
    if strTruthy step.id then
      (GraphVisualizer.updateStep s.vis (step.id.getD "")).1
    else if strTruthy step.name then
      (GraphVisualizer.updateStep s.vis (step.name.getD "")).1
    else s.vis
  { s with ui := ui, vis := vis }

/-- `handleStepEndMessage` (main.js lines 171-193): append output when
present; on an error, show it and mark the element failed when `result.id`
is truthy. -/
def handleStepEndMessage (s : AppState) (result : StepResult) : AppState :=
  let ui :=
    if strTruthy result.output then UIManager.appendOutput s.ui (result.output.getD "")
    else s.ui
  match result.error with
  | none => { s with ui := ui }
  | some err =>
    let ui := UIManager.updateError ui (jsOr err.message "Unknown error") (jsOr err.trace "")
    let vis :=
      if strTruthy result.id then
        GraphVisualizer.markElementAsFailed s.vis (result.id.getD "")
      else s.vis
    { s with ui := ui, vis := vis }

/-- `handleEndMessage` (main.js lines 196-221): switch to the statistics
panel, merge `message.status` into the statistics (or show status alone),
stop the run, append the completion banner. -/
def handleEndMessage (s : AppState) (status : Bool)
    (statistics : Option Statistics) : AppState :=
  let ui := { s.ui with currentStepShown := false, statisticsShown := true }
  let stats :=
    match statistics with
    | some st => { st with status := some status }
    | none => ({ status := some status } : Statistics)
  let ui := UIManager.updateStatistics ui stats
  let ui := UIManager.appendOutput ui "\n=== Test Execution Completed ==="
  { s with ui := ui, isRunning := false }

/-- `handleErrorMessage` (main.js lines 224-236). -/
def handleErrorMessage (s : AppState) (message trace : Option String)
    (step : Option Step) : AppState :=
  let ui := UIManager.updateError s.ui (jsOr message "Unknown error") (jsOr trace "")
  let vis :=
    match step with
    | some st =>
      if strTruthy st.id then GraphVisualizer.markElementAsFailed s.vis (st.id.getD "")
      else s.vis
    | none => s.vis
  { s with ui := ui, vis := vis }

/-- `WebSocketClient.handleMessage` (ui.js lines 339-348) with the handlers
registered by `setupWebSocketHandlers` (main.js lines 28-34): dispatch the
five known types; any other type has no registered handler and is logged and
ignored. -/
def WebSocketClient.handleMessage (s : AppState) (m : InMessage) : AppState :=
  match m with
  | .start models => handleStartMessage s models
  | .stepStart step => handleStepStartMessage s step
  | .stepEnd result => handleStepEndMessage s result
  | .runEnd status statistics => handleEndMessage s status statistics
  | .errorMsg message trace step => handleErrorMessage s message trace step
  | .other _ => s

/-- `ws.onmessage` (ui.js lines 312-320): the payload is parsed inside a
try/catch; an unparseable payload (`none`) is logged and discarded with no
state change, and any exception raised while handling is caught there too, so
no inbound payload ever stops the processing of later messages. -/
def WebSocketClient.processPayload (s : AppState) (payload : Option InMessage) :
    AppState :=
  match payload with
  | none => s
  | some m => WebSocketClient.handleMessage s m

/-- The visualizer state right after `init()` → `graphVisualizer.initialize()`
(main.js lines 14-25, graph.js constructor + `initialize`). -/
def initialVisualizer : VisualizerState :=
  { hasGraph := true, models := [], rendered := []
    visitCounts := fun _ => 0, currentStepId := none, failedStepId := none }

/-- The application state right after `init()`. -/
def initialApp : AppState :=
  { vis := initialVisualizer, ui := {}, isRunning := false, wsConnected := true }

/-- The states reachable from startup by processing any sequence of inbound
transport payloads (parse failures included). -/
inductive Reachable : AppState → Prop
  | init : Reachable initialApp
  | step (s : AppState) (p : Option InMessage) :
      Reachable s → Reachable (WebSocketClient.processPayload s p)

/-- Folding a list of `step-start` events through the handler. -/
def runStepEvents (s : AppState) (L : List Step) : AppState :=
  L.foldl handleStepStartMessage s

/-- Total number of edges declared across all sub-models of a container list
(counted on the raw input, independently of the conversion). -/
def numInputEdges (models : List ModelContainer) : Nat :=
  (models.map fun c => ((c.actualModels.map fun sm => (sm.edges.getD []).length).sum)).sum

/-- Modelled from the spec: the Coverage Calculator's percentage rule
(spec §4.3) — the percentage itself is computed upstream of this repository
(the backend/GraphWalker side, not present under src/); the frontend only
displays it.  `round(visited / total × 100)` when `total > 0`, else `0`;
`round x = floor (x + 1/2)`, so the result is `(200·visited + total) / (2·total)`
in natural-number arithmetic, which `coveragePercent_round_and_display` proves
equal to the rational rounding. -/
def coveragePercent (visited total : Nat) : Nat :=
  if total = 0 then 0 else (200 * visited + total) / (2 * total)

/-- The fill and stroke of the item an id resolves to, if any. -/
def VisualizerState.styleOf (st : VisualizerState) (id : String) :
    Option (String × String) :=
  (st.findById id).map fun a => (a.fill, a.stroke)

/-- No rendered item carries the current-step highlight. -/
def NoShadow (st : VisualizerState) : Prop :=
  ∀ a ∈ st.rendered, a.shadowOn = false

/-- Any highlighted item is the current step. -/
def HighlightInv (st : VisualizerState) : Prop :=
  ∀ a ∈ st.rendered, a.shadowOn = true → st.currentStepId = some a.id

/-- The visualizer invariants maintained by the message handlers: the graph
instance exists, every visited id and the current id resolve in the rendered
graph, the current id is non-empty, and only the current step is
highlighted. -/
def VisInv (st : VisualizerState) : Prop :=
  st.hasGraph = true ∧
  (∀ i, 0 < st.visitCounts i → (st.findById i).isSome = true) ∧
  (∀ c, st.currentStepId = some c →
     c.isEmpty = false ∧ (st.findById c).isSome = true) ∧
  HighlightInv st

/-- The application-level invariant. -/
def AppInv (s : AppState) : Prop := VisInv s.vis

/-- A flat (non-nested) sub-model presented directly as a container, as in
`normalize([m])`: the JS object `m` itself, which has no `models` key. -/
def SubModel.asContainer (m : SubModel) : ModelContainer :=
  { name := m.name, vertices := m.vertices, edges := m.edges }

/-- The one-level wrapping of a sub-model, as in `normalize([{models: [m]}])`:
an anonymous wrapper object whose only key is `models`. -/
def wrapContainer (m : SubModel) : ModelContainer :=
  { models := some [m] }

/-- Overwrite the `modelName` field of every node and edge with `'default'`. -/
def setDefaultModelName (d : List G6Node × List G6Edge) :
    List G6Node × List G6Edge :=
  (d.1.map fun n => { n with modelName := "default" },
   d.2.map fun e => { e with modelName := "default" })

/-- Concrete sub-model for the C4 witness: one vertex, one edge whose target
reference matches no vertex. -/
def smC4 : SubModel :=
  { vertices := some [{ id := "v1", name := some "A" }]
    edges := some [{ id := "e1", name := some "go"
                     sourceVertexId := "v1", targetVertexId := "vX" }] }

/-- Concrete container for the C4 counterexample. -/
def mC4 : ModelContainer :=
  { name := some "M", vertices := smC4.vertices, edges := smC4.edges }

/-- Concrete named sub-model for the C5 counterexample. -/
def mC5 : SubModel :=
  { name := some "M", vertices := some [{ id := "v1", name := some "A" }] }

/-- Concrete unnamed sub-model for the C5 witness. -/
def mC5w : SubModel :=
  { vertices := some [{ id := "v1", name := some "A" }] }

/-- Concrete named but empty sub-model for the C5 witness: it produces no
nodes and no edges, so flat and wrapped normalization agree despite the
name. -/
def mC5e : SubModel :=
  { name := some "M" }

/-- A two-vertex, one-edge run-start model used by several concrete states. -/
def mdlRun : ModelContainer :=
  { name := some "M"
    vertices := some [{ id := "v1", name := some "A" },
                      { id := "v2", name := some "B" }]
    edges := some [{ id := "e1", name := some "go"
                     sourceVertexId := "v1", targetVertexId := "v2" }] }

/-- Concrete reachable state: after a `start` message carrying `mdlRun`. -/
def appStarted : AppState :=
  WebSocketClient.processPayload initialApp (some (.start (some [mdlRun])))

/-- Concrete reachable state: `appStarted` after a `step-start` visiting A. -/
def appVisitedA : AppState :=
  WebSocketClient.processPayload appStarted (some (.stepStart { id := some "A" }))

/-- Concrete reachable state for C8: `appStarted` after an `error` message
marking A failed. -/
def appFailedA : AppState :=
  WebSocketClient.processPayload appStarted
    (some (.errorMsg (some "boom") none (some { id := some "A" })))

/-- Concrete reachable state for C8: `appFailedA` after a `step-start`
visiting the failed element A again. -/
def appRevisitA : AppState :=
  WebSocketClient.processPayload appFailedA (some (.stepStart { id := some "A" }))

/-- A state with stale run data, for the C7 witness. -/
def appStale : AppState :=
  { vis := { hasGraph := true
             models := [{ name := some "Old", vertices := some [{ id := "o1", name := some "OldA" }] }]
             rendered := [{ id := "OldA", isNode := true, fill := "#ef4444"
                            stroke := "#dc2626", lineWidth := 4, shadowOn := true }]
             visitCounts := fun _ => 3
             currentStepId := some "OldA", failedStepId := some "OldA" }
    ui := {}, isRunning := false, wsConnected := true }

/-- The step-event list for the C1 witness: A, then the unresolvable X, then
an id-less event falling back to the name B, then A again. -/
def eventsC1 : List Step :=
  [{ id := some "A" }, { id := some "X" },
   { id := none, name := some "B" }, { id := some "A" }]

/-! ### Generic lemmas about the rendered-item surface -/

theorem find?_updateItems (e x : String) (f : RenderedItem → RenderedItem)
    (hf : ∀ a, (f a).id = a.id) (l : List RenderedItem) :
    (updateItems e f l).find? (fun a => a.id == x) =
      (l.find? fun a => a.id == x).map fun a => if a.id == e then f a else a := by
  induction l with
  | nil => rfl
  | cons a l ih =>
    have hid : (if a.id == e then f a else a).id = a.id := by
      by_cases h : a.id = e
      · simp [h, hf]
      · simp [h]
    by_cases hx : a.id = x
    · simp only [updateItems, List.map_cons]
      rw [List.find?_cons_of_pos _ (by rw [hid]; simp [hx]),
          List.find?_cons_of_pos _ (by simp [hx])]
      simp
    · simp only [updateItems, List.map_cons]
      rw [List.find?_cons_of_neg _ (by rw [hid]; simp [hx]),
          List.find?_cons_of_neg _ (by simp [hx])]
      exact ih

theorem mem_updateItems (e : String) (f : RenderedItem → RenderedItem)
    (l : List RenderedItem) (a' : RenderedItem) (h : a' ∈ updateItems e f l) :
    ∃ a ∈ l, a' = if a.id == e then f a else a := by
  obtain ⟨a, ha, rfl⟩ := List.mem_map.mp h
  exact ⟨a, ha, rfl⟩

theorem applyStyle_hasGraph (st : VisualizerState) (e : String)
    (fn fe : RenderedItem → RenderedItem) :
    (st.applyStyle e fn fe).hasGraph = st.hasGraph := by
  unfold VisualizerState.applyStyle
  cases st.findById e <;> rfl

theorem applyStyle_models (st : VisualizerState) (e : String)
    (fn fe : RenderedItem → RenderedItem) :
    (st.applyStyle e fn fe).models = st.models := by
  unfold VisualizerState.applyStyle
  cases st.findById e <;> rfl

theorem applyStyle_visitCounts (st : VisualizerState) (e : String)
    (fn fe : RenderedItem → RenderedItem) :
    (st.applyStyle e fn fe).visitCounts = st.visitCounts := by
  unfold VisualizerState.applyStyle
  cases st.findById e <;> rfl

theorem applyStyle_currentStepId (st : VisualizerState) (e : String)
    (fn fe : RenderedItem → RenderedItem) :
    (st.applyStyle e fn fe).currentStepId = st.currentStepId := by
  unfold VisualizerState.applyStyle
  cases st.findById e <;> rfl

theorem applyStyle_failedStepId (st : VisualizerState) (e : String)
    (fn fe : RenderedItem → RenderedItem) :
    (st.applyStyle e fn fe).failedStepId = st.failedStepId := by
  unfold VisualizerState.applyStyle
  cases st.findById e <;> rfl

theorem applyStyle_findById (st : VisualizerState) (e x : String)
    (fn fe : RenderedItem → RenderedItem)
    (hfn : ∀ a, (fn a).id = a.id) (hfe : ∀ a, (fe a).id = a.id) :
    (st.applyStyle e fn fe).findById x =
      match st.findById e with
      | none => st.findById x
      | some item =>
        (st.findById x).map fun a =>
          if a.id == e then (if item.isNode then fn else fe) a else a := by
  unfold VisualizerState.applyStyle
  cases h : st.findById e with
  | none => rfl
  | some item =>
    show (updateItems e _ st.rendered).find? (fun a => a.id == x) = _
    rw [find?_updateItems e x _
          (fun a => by by_cases hn : item.isNode <;> simp [hn, hfn, hfe])]
    rfl

theorem applyStyle_findById_isSome (st : VisualizerState) (e x : String)
    (fn fe : RenderedItem → RenderedItem)
    (hfn : ∀ a, (fn a).id = a.id) (hfe : ∀ a, (fe a).id = a.id) :
    ((st.applyStyle e fn fe).findById x).isSome = (st.findById x).isSome := by
  rw [applyStyle_findById st e x fn fe hfn hfe]
  cases st.findById e with
  | none => rfl
  | some item => cases st.findById x <;> rfl

theorem applyStyle_findById_ne (st : VisualizerState) (e x : String)
    (fn fe : RenderedItem → RenderedItem)
    (hfn : ∀ a, (fn a).id = a.id) (hfe : ∀ a, (fe a).id = a.id)
    (hx : x ≠ e) :
    (st.applyStyle e fn fe).findById x = st.findById x := by
  rw [applyStyle_findById st e x fn fe hfn hfe]
  cases st.findById e with
  | none => rfl
  | some item =>
    cases h : st.findById x with
    | none => rfl
    | some a =>
      have ha : a.id = x := by
        have := List.find?_some h
        simpa using this
      simp [ha, hx]

/-! ### Projection lemmas for the GraphVisualizer mutators -/

theorem highlightElement_visitCounts (st : VisualizerState) (e : String) (b : Bool) :
    (GraphVisualizer.highlightElement st e b).visitCounts = st.visitCounts :=
  applyStyle_visitCounts st e _ _

theorem highlightElement_hasGraph (st : VisualizerState) (e : String) (b : Bool) :
    (GraphVisualizer.highlightElement st e b).hasGraph = st.hasGraph :=
  applyStyle_hasGraph st e _ _

theorem highlightElement_models (st : VisualizerState) (e : String) (b : Bool) :
    (GraphVisualizer.highlightElement st e b).models = st.models :=
  applyStyle_models st e _ _

theorem highlightElement_currentStepId (st : VisualizerState) (e : String) (b : Bool) :
    (GraphVisualizer.highlightElement st e b).currentStepId = st.currentStepId :=
  applyStyle_currentStepId st e _ _

theorem highlightElement_failedStepId (st : VisualizerState) (e : String) (b : Bool) :
    (GraphVisualizer.highlightElement st e b).failedStepId = st.failedStepId :=
  applyStyle_failedStepId st e _ _

theorem highlightElement_findById_isSome (st : VisualizerState) (e x : String) (b : Bool) :
    ((GraphVisualizer.highlightElement st e b).findById x).isSome = (st.findById x).isSome :=
  applyStyle_findById_isSome st e x _ _ (fun _ => rfl) (fun _ => rfl)

theorem highlightElement_styleOf (st : VisualizerState) (e x : String) (b : Bool) :
    (GraphVisualizer.highlightElement st e b).styleOf x = st.styleOf x := by
  unfold VisualizerState.styleOf
  rw [GraphVisualizer.highlightElement,
      applyStyle_findById st e x (hlUpd b) (hlUpd b) (fun _ => rfl) (fun _ => rfl)]
  cases st.findById e with
  | none => rfl
  | some item =>
    cases st.findById x with
    | none => rfl
    | some a =>
      by_cases h : a.id = e <;> by_cases hn : item.isNode <;> simp [h, hn, hlUpd]

theorem updateElementColor_visitCounts (st : VisualizerState) (e : String) :
    (GraphVisualizer.updateElementColor st e).visitCounts = st.visitCounts :=
  applyStyle_visitCounts st e _ _

theorem updateElementColor_hasGraph (st : VisualizerState) (e : String) :
    (GraphVisualizer.updateElementColor st e).hasGraph = st.hasGraph :=
  applyStyle_hasGraph st e _ _

theorem updateElementColor_models (st : VisualizerState) (e : String) :
    (GraphVisualizer.updateElementColor st e).models = st.models :=
  applyStyle_models st e _ _

theorem updateElementColor_currentStepId (st : VisualizerState) (e : String) :
    (GraphVisualizer.updateElementColor st e).currentStepId = st.currentStepId :=
  applyStyle_currentStepId st e _ _

theorem updateElementColor_failedStepId (st : VisualizerState) (e : String) :
    (GraphVisualizer.updateElementColor st e).failedStepId = st.failedStepId :=
  applyStyle_failedStepId st e _ _

theorem updateElementColor_findById_isSome (st : VisualizerState) (e x : String) :
    ((GraphVisualizer.updateElementColor st e).findById x).isSome = (st.findById x).isSome :=
  applyStyle_findById_isSome st e x _ _ (fun _ => rfl) (fun _ => rfl)

theorem updateElementColor_styleOf_ne (st : VisualizerState) (e x : String) (hx : x ≠ e) :
    (GraphVisualizer.updateElementColor st e).styleOf x = st.styleOf x := by
  unfold VisualizerState.styleOf
  rw [GraphVisualizer.updateElementColor,
      applyStyle_findById_ne st e x
        (colorUpdNode (GraphVisualizer.colorScale (st.visitCounts e)))
        (colorUpdEdge (GraphVisualizer.colorScale (st.visitCounts e)))
        (fun _ => rfl) (fun _ => rfl) hx]

theorem markElementAsFailed_visitCounts (st : VisualizerState) (e : String) :
    (GraphVisualizer.markElementAsFailed st e).visitCounts = st.visitCounts :=
  applyStyle_visitCounts _ e _ _

theorem markElementAsFailed_hasGraph (st : VisualizerState) (e : String) :
    (GraphVisualizer.markElementAsFailed st e).hasGraph = st.hasGraph :=
  applyStyle_hasGraph _ e _ _

theorem markElementAsFailed_models (st : VisualizerState) (e : String) :
    (GraphVisualizer.markElementAsFailed st e).models = st.models :=
  applyStyle_models _ e _ _

theorem markElementAsFailed_currentStepId (st : VisualizerState) (e : String) :
    (GraphVisualizer.markElementAsFailed st e).currentStepId = st.currentStepId :=
  applyStyle_currentStepId _ e _ _

theorem markElementAsFailed_failedStepId (st : VisualizerState) (e : String) :
    (GraphVisualizer.markElementAsFailed st e).failedStepId = some e := by
  rw [GraphVisualizer.markElementAsFailed, applyStyle_failedStepId]

theorem markElementAsFailed_findById_isSome (st : VisualizerState) (e x : String) :
    ((GraphVisualizer.markElementAsFailed st e).findById x).isSome = (st.findById x).isSome :=
  applyStyle_findById_isSome _ e x _ _ (fun _ => rfl) (fun _ => rfl)

theorem visitStep_findById (st : VisualizerState) (k x : String) :
    (GraphVisualizer.visitStep st k).findById x = st.findById x := rfl

theorem visitStep_hasGraph (st : VisualizerState) (k : String) :
    (GraphVisualizer.visitStep st k).hasGraph = st.hasGraph := rfl

theorem visitStep_models (st : VisualizerState) (k : String) :
    (GraphVisualizer.visitStep st k).models = st.models := rfl

theorem visitStep_rendered (st : VisualizerState) (k : String) :
    (GraphVisualizer.visitStep st k).rendered = st.rendered := rfl

theorem visitStep_visitCounts (st : VisualizerState) (k : String) :
    (GraphVisualizer.visitStep st k).visitCounts = bumpCount st.visitCounts k := rfl

theorem visitStep_currentStepId (st : VisualizerState) (k : String) :
    (GraphVisualizer.visitStep st k).currentStepId = some k := rfl

theorem visitStep_styleOf (st : VisualizerState) (k x : String) :
    (GraphVisualizer.visitStep st k).styleOf x = st.styleOf x := rfl

/-! ### Case analysis of `updateStep` -/

theorem updateStep_noGraph (st : VisualizerState) (k : String)
    (h : st.hasGraph = false) : GraphVisualizer.updateStep st k = (st, []) := by
  rw [GraphVisualizer.updateStep]
  simp [h]

theorem updateStep_emptyId (st : VisualizerState) (k : String)
    (h : k.isEmpty = true) : GraphVisualizer.updateStep st k = (st, []) := by
  rw [GraphVisualizer.updateStep]
  by_cases hg : st.hasGraph = false <;> simp [hg, h]

theorem updateStep_not_found (st : VisualizerState) (k : String)
    (h : st.findById k = none) : GraphVisualizer.updateStep st k = (st, []) := by
  rw [GraphVisualizer.updateStep]
  by_cases hg : st.hasGraph = false
  · simp [hg]
  · by_cases hk : k.isEmpty = true <;> simp [hg, hk, h]

theorem updateStep_cases (st : VisualizerState) (k : String) :
    GraphVisualizer.updateStep st k = (st, []) ∨
      (st.hasGraph = true ∧ k.isEmpty = false ∧ ∃ it, st.findById k = some it) := by
  cases hg : st.hasGraph with
  | false => exact Or.inl (updateStep_noGraph st k hg)
  | true =>
    cases hk : k.isEmpty with
    | true => exact Or.inl (updateStep_emptyId st k hk)
    | false =>
      cases hf : st.findById k with
      | none => exact Or.inl (updateStep_not_found st k hf)
      | some it => exact Or.inr ⟨rfl, rfl, it, rfl⟩

theorem updateStep_found_visitCounts (st : VisualizerState) (k : String)
    (it : RenderedItem) (hg : st.hasGraph = true) (hk : k.isEmpty = false)
    (hfind : st.findById k = some it) :
    (GraphVisualizer.updateStep st k).1.visitCounts = bumpCount st.visitCounts k := by
  rw [GraphVisualizer.updateStep]
  by_cases hc : strTruthy st.currentStepId = true <;>
    simp [hg, hk, hfind, hc, updateElementColor_visitCounts, highlightElement_visitCounts,
          visitStep_visitCounts]

theorem updateStep_found_currentStepId (st : VisualizerState) (k : String)
    (it : RenderedItem) (hg : st.hasGraph = true) (hk : k.isEmpty = false)
    (hfind : st.findById k = some it) :
    (GraphVisualizer.updateStep st k).1.currentStepId = some k := by
  rw [GraphVisualizer.updateStep]
  by_cases hc : strTruthy st.currentStepId = true <;>
    simp [hg, hk, hfind, hc, updateElementColor_currentStepId, highlightElement_currentStepId,
          visitStep_currentStepId]

theorem updateStep_found_calls (st : VisualizerState) (k : String)
    (it : RenderedItem) (hg : st.hasGraph = true) (hk : k.isEmpty = false)
    (hfind : st.findById k = some it) :
    (GraphVisualizer.updateStep st k).2 =
      (if strTruthy st.currentStepId then [(st.currentStepId.getD "", false)]
       else []) ++ [(k, true)] := by
  rw [GraphVisualizer.updateStep]
  by_cases hc : strTruthy st.currentStepId = true <;> simp [hg, hk, hfind, hc]

theorem updateStep_fst_hasGraph (st : VisualizerState) (k : String) :
    (GraphVisualizer.updateStep st k).1.hasGraph = st.hasGraph := by
  rcases updateStep_cases st k with h | ⟨hg, hk, it, hfind⟩
  · rw [h]
  · rw [GraphVisualizer.updateStep]
    by_cases hc : strTruthy st.currentStepId = true <;>
      simp [hg, hk, hfind, hc, updateElementColor_hasGraph, highlightElement_hasGraph,
            visitStep_hasGraph]

theorem updateStep_fst_models (st : VisualizerState) (k : String) :
    (GraphVisualizer.updateStep st k).1.models = st.models := by
  rcases updateStep_cases st k with h | ⟨hg, hk, it, hfind⟩
  · rw [h]
  · rw [GraphVisualizer.updateStep]
    by_cases hc : strTruthy st.currentStepId = true <;>
      simp [hg, hk, hfind, hc, updateElementColor_models, highlightElement_models,
            visitStep_models]

theorem updateStep_fst_findById_isSome (st : VisualizerState) (k x : String) :
    (((GraphVisualizer.updateStep st k).1).findById x).isSome = (st.findById x).isSome := by
  rcases updateStep_cases st k with h | ⟨hg, hk, it, hfind⟩
  · rw [h]
  · rw [GraphVisualizer.updateStep]
    by_cases hc : strTruthy st.currentStepId = true <;>
      simp [hg, hk, hfind, hc, updateElementColor_findById_isSome,
            highlightElement_findById_isSome, visitStep_findById]

/-! ### The success path of `updateStep` as an explicit composition -/

theorem updateStep_found_fst (st : VisualizerState) (k : String)
    (it : RenderedItem) (hg : st.hasGraph = true) (hk : k.isEmpty = false)
    (hfind : st.findById k = some it) :
    (GraphVisualizer.updateStep st k).1 =
      GraphVisualizer.highlightElement
        (GraphVisualizer.updateElementColor
          (GraphVisualizer.visitStep
            (if strTruthy st.currentStepId then
               GraphVisualizer.highlightElement st (st.currentStepId.getD "") false
             else st) k) k) k true := by
  rw [GraphVisualizer.updateStep]
  by_cases hc : strTruthy st.currentStepId = true <;> simp [hg, hk, hfind, hc]

theorem updateStep_fst_styleOf_ne (st : VisualizerState) (k x : String)
    (hx : x ≠ k) :
    (GraphVisualizer.updateStep st k).1.styleOf x = st.styleOf x := by
  rcases updateStep_cases st k with hno | ⟨hg, hk, it, hfind⟩
  · rw [hno]
  · rw [updateStep_found_fst st k it hg hk hfind, highlightElement_styleOf,
        updateElementColor_styleOf_ne _ _ _ hx, visitStep_styleOf]
    by_cases hc : strTruthy st.currentStepId = true <;> simp [hc, highlightElement_styleOf]

/-! ### Shadow bookkeeping -/

theorem renderItems_shadowOn (d : List G6Node × List G6Edge) :
    ∀ a ∈ renderItems d, a.shadowOn = false := by
  intro a ha
  rcases List.mem_append.mp ha with h | h
  · obtain ⟨x, _, rfl⟩ := List.mem_map.mp h
    rfl
  · obtain ⟨x, _, rfl⟩ := List.mem_map.mp h
    rfl

theorem not_mem_id_of_findById_none (st : VisualizerState) (c : String)
    (h : st.findById c = none) : ∀ a ∈ st.rendered, a.id ≠ c := by
  intro a ha
  have := List.find?_eq_none.mp h a ha
  simpa using this

theorem noShadow_of_highlightInv_none (st : VisualizerState)
    (h : HighlightInv st) (hc : st.currentStepId = none) : NoShadow st := by
  intro a ha
  cases hs : a.shadowOn
  · rfl
  · have h1 := h a ha hs
    rw [hc] at h1
    exact Option.noConfusion h1

theorem noShadow_unhighlight (st : VisualizerState) (c : String)
    (hInv : HighlightInv st) (hc : st.currentStepId = some c) :
    NoShadow (GraphVisualizer.highlightElement st c false) := by
  unfold GraphVisualizer.highlightElement VisualizerState.applyStyle
  cases hf : st.findById c with
  | none =>
    intro a' ha'
    cases hs : a'.shadowOn
    · rfl
    · have h1 := hInv a' ha' hs
      rw [hc] at h1
      have h2 : c = a'.id := by injection h1
      exact absurd h2.symm (not_mem_id_of_findById_none st c hf a' ha')
  | some it =>
    intro a' ha'
    obtain ⟨a, ha, rfl⟩ := mem_updateItems c _ st.rendered a' ha'
    by_cases hid : a.id = c
    · by_cases hn : it.isNode = true <;> simp [hid, hn, hlUpd]
    · have heq : ((a.id == c) = false) := by simp [hid]
      rw [heq]
      simp only [Bool.false_eq_true, if_false]
      cases hs : a.shadowOn
      · rfl
      · have h1 := hInv a ha hs
        rw [hc] at h1
        have h2 : c = a.id := by injection h1
        exact absurd h2.symm hid

theorem noShadow_applyStyle (st : VisualizerState) (e : String)
    (fn fe : RenderedItem → RenderedItem)
    (hfn : ∀ a, (fn a).shadowOn = a.shadowOn)
    (hfe : ∀ a, (fe a).shadowOn = a.shadowOn)
    (h : NoShadow st) : NoShadow (st.applyStyle e fn fe) := by
  unfold VisualizerState.applyStyle
  cases hf : st.findById e with
  | none => exact h
  | some it =>
    intro a' ha'
    obtain ⟨a, ha, rfl⟩ := mem_updateItems e _ st.rendered a' ha'
    by_cases hid : a.id = e
    · by_cases hn : it.isNode = true <;> simp [hid, hn, hfn, hfe, h a ha]
    · simp [hid, h a ha]

theorem noShadow_updateElementColor (st : VisualizerState) (k : String)
    (h : NoShadow st) : NoShadow (GraphVisualizer.updateElementColor st k) :=
  noShadow_applyStyle st k _ _ (fun _ => rfl) (fun _ => rfl) h

theorem highlightInv_highlight_on (st : VisualizerState) (k : String)
    (h : NoShadow st) (hcur : st.currentStepId = some k) :
    HighlightInv (GraphVisualizer.highlightElement st k true) := by
  unfold GraphVisualizer.highlightElement VisualizerState.applyStyle
  cases hf : st.findById k with
  | none =>
    intro a ha hs
    rw [h a ha] at hs
    exact Bool.noConfusion hs
  | some it =>
    intro a' ha' hs
    obtain ⟨a, ha, rfl⟩ := mem_updateItems k _ st.rendered a' ha'
    by_cases hid : a.id = k
    · show st.currentStepId = _
      rw [hcur]
      by_cases hn : it.isNode = true <;> simp [hid, hn, hlUpd]
    · rw [if_neg (by simp [hid])] at hs ⊢
      rw [h a ha] at hs
      exact Bool.noConfusion hs

theorem highlightInv_applyStyle (st : VisualizerState) (e : String)
    (fn fe : RenderedItem → RenderedItem)
    (hfn : ∀ a, (fn a).id = a.id ∧ (fn a).shadowOn = a.shadowOn)
    (hfe : ∀ a, (fe a).id = a.id ∧ (fe a).shadowOn = a.shadowOn)
    (h : HighlightInv st) : HighlightInv (st.applyStyle e fn fe) := by
  unfold VisualizerState.applyStyle
  cases hf : st.findById e with
  | none => exact h
  | some it =>
    intro a' ha' hs
    obtain ⟨a, ha, rfl⟩ := mem_updateItems e _ st.rendered a' ha'
    show st.currentStepId = _
    by_cases hid : a.id = e
    · by_cases hn : it.isNode = true
      · rw [if_pos (by simp [hid]), hn] at hs ⊢
        simp only [if_true] at hs ⊢
        rw [(hfn a).2] at hs
        rw [(hfn a).1]
        exact h a ha hs
      · rw [if_pos (by simp [hid])] at hs ⊢
        simp only [hn, Bool.false_eq_true, if_false] at hs ⊢
        rw [(hfe a).2] at hs
        rw [(hfe a).1]
        exact h a ha hs
    · rw [if_neg (by simp [hid])] at hs ⊢
      exact h a ha hs

/-! ### Invariant preservation -/

theorem visInv_updateStep (st : VisualizerState) (k : String) (h : VisInv st) :
    VisInv (GraphVisualizer.updateStep st k).1 := by
  obtain ⟨hg, hcounts, hcur, hHL⟩ := h
  rcases updateStep_cases st k with hno | ⟨hg', hk, it, hfind⟩
  · rw [hno]; exact ⟨hg, hcounts, hcur, hHL⟩
  · refine ⟨?_, ?_, ?_, ?_⟩
    · rw [updateStep_fst_hasGraph]; exact hg
    · intro i hi
      rw [updateStep_found_visitCounts st k it hg' hk hfind] at hi
      rw [updateStep_fst_findById_isSome]
      unfold bumpCount at hi
      by_cases hik : i = k
      · subst hik; rw [hfind]; rfl
      · rw [if_neg hik] at hi
        exact hcounts i hi
    · intro c hc
      rw [updateStep_found_currentStepId st k it hg' hk hfind] at hc
      injection hc with hc
      subst hc
      refine ⟨hk, ?_⟩
      rw [updateStep_fst_findById_isSome, hfind]; rfl
    · rw [updateStep_found_fst st k it hg' hk hfind]
      have hbase : NoShadow (if strTruthy st.currentStepId then
          GraphVisualizer.highlightElement st (st.currentStepId.getD "") false
        else st) := by
        by_cases hct : strTruthy st.currentStepId = true
        · rw [if_pos hct]
          cases hcs : st.currentStepId with
          | none => rw [hcs] at hct; exact absurd hct (by simp [strTruthy])
          | some c =>
            exact noShadow_unhighlight st c hHL hcs
        · rw [if_neg hct]
          cases hcs : st.currentStepId with
          | none => exact noShadow_of_highlightInv_none st hHL hcs
          | some c =>
            exfalso
            refine hct ?_
            rw [hcs]
            simp [strTruthy, (hcur c hcs).1]
      refine highlightInv_highlight_on _ k
        (noShadow_updateElementColor _ k (fun a ha => hbase a ha)) ?_
      rw [updateElementColor_currentStepId, visitStep_currentStepId]

theorem visInv_markFailed (st : VisualizerState) (e : String) (h : VisInv st) :
    VisInv (GraphVisualizer.markElementAsFailed st e) := by
  obtain ⟨hg, hcounts, hcur, hHL⟩ := h
  refine ⟨?_, ?_, ?_, ?_⟩
  · rw [markElementAsFailed_hasGraph]; exact hg
  · intro i hi
    rw [markElementAsFailed_visitCounts] at hi
    rw [markElementAsFailed_findById_isSome]
    exact hcounts i hi
  · intro c hc
    rw [markElementAsFailed_currentStepId] at hc
    obtain ⟨h1, h2⟩ := hcur c hc
    refine ⟨h1, ?_⟩
    rw [markElementAsFailed_findById_isSome]
    exact h2
  · show HighlightInv
      (({ st with failedStepId := some e } : VisualizerState).applyStyle e failUpdNode failUpdEdge)
    refine highlightInv_applyStyle _ e _ _ (fun a => ⟨rfl, rfl⟩) (fun a => ⟨rfl, rfl⟩) ?_
    intro a ha hs
    exact hHL a ha hs

theorem visInv_setModels (st : VisualizerState) (ms : List ModelContainer)
    (hg : st.hasGraph = true) (hms : ms ≠ []) :
    VisInv (GraphVisualizer.setModels st ms) := by
  have hEmpty : ms.isEmpty = false := by
    cases ms
    · exact absurd rfl hms
    · rfl
  unfold GraphVisualizer.setModels GraphVisualizer.renderGraph
  simp only [hg, hEmpty, Bool.not_true, Bool.or_self]
  rw [if_neg (by simp)]
  refine ⟨rfl, ?_, ?_, ?_⟩
  · intro i hi
    exact absurd hi (by simp)
  · intro c hc
    exact Option.noConfusion hc
  · intro a ha hs
    rw [renderItems_shadowOn _ a ha] at hs
    exact Bool.noConfusion hs

theorem handleStartMessage_vis (s : AppState) (models : Option (List ModelContainer)) :
    (handleStartMessage s models).vis =
      match models with
      | some ms => if ms.length > 0 then GraphVisualizer.setModels s.vis ms else s.vis
      | none => s.vis := rfl

theorem handleStepStartMessage_vis (s : AppState) (step : Step) :
    (handleStepStartMessage s step).vis =
      (if strTruthy step.id then
        (GraphVisualizer.updateStep s.vis (step.id.getD "")).1
       else if strTruthy step.name then
        (GraphVisualizer.updateStep s.vis (step.name.getD "")).1
       else s.vis) := rfl

theorem handleStepEndMessage_vis (s : AppState) (result : StepResult) :
    (handleStepEndMessage s result).vis =
      match result.error with
      | none => s.vis
      | some _ =>
        if strTruthy result.id then
          GraphVisualizer.markElementAsFailed s.vis (result.id.getD "")
        else s.vis := by
  rcases result with ⟨rid, rout, rerr⟩
  cases rerr <;> rfl

theorem handleEndMessage_vis (s : AppState) (status : Bool)
    (statistics : Option Statistics) :
    (handleEndMessage s status statistics).vis = s.vis := rfl

theorem handleErrorMessage_vis (s : AppState) (message trace : Option String)
    (step : Option Step) :
    (handleErrorMessage s message trace step).vis =
      match step with
      | some st =>
        if strTruthy st.id then
          GraphVisualizer.markElementAsFailed s.vis (st.id.getD "")
        else s.vis
      | none => s.vis := rfl

theorem appInv_processPayload (s : AppState) (p : Option InMessage)
    (h : AppInv s) : AppInv (WebSocketClient.processPayload s p) := by
  cases p with
  | none => exact h
  | some m =>
    cases m with
    | start models =>
      show VisInv (handleStartMessage s models).vis
      rw [handleStartMessage_vis]
      cases models with
      | none => exact h
      | some ms =>
        show VisInv (if ms.length > 0 then GraphVisualizer.setModels s.vis ms else s.vis)
        by_cases hlen : ms.length > 0
        · rw [if_pos hlen]
          refine visInv_setModels s.vis ms h.1 ?_
          intro hnil
          rw [hnil] at hlen
          exact absurd hlen (by simp)
        · rw [if_neg hlen]; exact h
    | stepStart step =>
      show VisInv (handleStepStartMessage s step).vis
      rw [handleStepStartMessage_vis]
      by_cases h1 : strTruthy step.id = true
      · rw [if_pos h1]; exact visInv_updateStep _ _ h
      · rw [if_neg h1]
        by_cases h2 : strTruthy step.name = true
        · rw [if_pos h2]; exact visInv_updateStep _ _ h
        · rw [if_neg h2]; exact h
    | stepEnd result =>
      show VisInv (handleStepEndMessage s result).vis
      rw [handleStepEndMessage_vis]
      cases result.error with
      | none => exact h
      | some err =>
        show VisInv (if strTruthy result.id then
          GraphVisualizer.markElementAsFailed s.vis (result.id.getD "") else s.vis)
        by_cases h1 : strTruthy result.id = true
        · rw [if_pos h1]; exact visInv_markFailed _ _ h
        · rw [if_neg h1]; exact h
    | runEnd status statistics =>
      show VisInv (handleEndMessage s status statistics).vis
      rw [handleEndMessage_vis]; exact h
    | errorMsg message trace step =>
      show VisInv (handleErrorMessage s message trace step).vis
      rw [handleErrorMessage_vis]
      cases step with
      | none => exact h
      | some stp =>
        show VisInv (if strTruthy stp.id then
          GraphVisualizer.markElementAsFailed s.vis (stp.id.getD "") else s.vis)
        by_cases h1 : strTruthy stp.id = true
        · rw [if_pos h1]; exact visInv_markFailed _ _ h
        · rw [if_neg h1]; exact h
    | other t => exact h

theorem reachable_inv (s : AppState) (h : Reachable s) : AppInv s := by
  induction h with
  | init =>
    refine ⟨rfl, ?_, ?_, ?_⟩
    · intro i hi
      exact absurd hi (by simp [initialApp, initialVisualizer])
    · intro c hc
      exact Option.noConfusion hc
    · intro a ha _
      exact absurd ha (by simp [initialApp, initialVisualizer])
  | step s p _ ih => exact appInv_processPayload s p ih

/-! ### Step-start event counting -/

theorem stepEventId_some (e : Step) (k : String) (h : stepEventId e = some k) :
    k.isEmpty = false ∧
      ∀ s : AppState,
        (handleStepStartMessage s e).vis = (GraphVisualizer.updateStep s.vis k).1 := by
  unfold stepEventId at h
  by_cases h1 : strTruthy e.id = true
  · rw [if_pos h1] at h
    constructor
    · rw [h] at h1
      simpa [strTruthy] using h1
    · intro s
      rw [handleStepStartMessage_vis, if_pos h1, h]
      rfl
  · rw [if_neg h1] at h
    by_cases h2 : strTruthy e.name = true
    · rw [if_pos h2] at h
      constructor
      · rw [h] at h2
        simpa [strTruthy] using h2
      · intro s
        rw [handleStepStartMessage_vis, if_neg h1, if_pos h2, h]
        rfl
    · rw [if_neg h2] at h
      exact Option.noConfusion h

theorem stepEventId_none (e : Step) (h : stepEventId e = none) (s : AppState) :
    (handleStepStartMessage s e).vis = s.vis := by
  unfold stepEventId at h
  by_cases h1 : strTruthy e.id = true
  · rw [if_pos h1] at h
    rw [h] at h1
    exact absurd h1 (by simp [strTruthy])
  · by_cases h2 : strTruthy e.name = true
    · rw [if_neg h1, if_pos h2] at h
      rw [h] at h2
      exact absurd h2 (by simp [strTruthy])
    · rw [handleStepStartMessage_vis, if_neg h1, if_neg h2]

theorem handleStepStart_hasGraph (s : AppState) (e : Step) :
    (handleStepStartMessage s e).vis.hasGraph = s.vis.hasGraph := by
  cases h : stepEventId e with
  | none => rw [stepEventId_none e h s]
  | some k => rw [(stepEventId_some e k h).2 s, updateStep_fst_hasGraph]

theorem handleStepStart_findById_isSome (s : AppState) (e : Step) (x : String) :
    ((handleStepStartMessage s e).vis.findById x).isSome =
      (s.vis.findById x).isSome := by
  cases h : stepEventId e with
  | none => rw [stepEventId_none e h s]
  | some k => rw [(stepEventId_some e k h).2 s, updateStep_fst_findById_isSome]

theorem handleStepStart_visitCounts (s : AppState) (hg : s.vis.hasGraph = true)
    (e : Step) (j : String) :
    (handleStepStartMessage s e).vis.visitCounts j =
      s.vis.visitCounts j +
        (if (s.vis.findById j).isSome = true ∧ stepEventId e = some j then 1
         else 0) := by
  cases h : stepEventId e with
  | none =>
    rw [stepEventId_none e h s]
    simp
  | some k =>
    obtain ⟨hk, hvis⟩ := stepEventId_some e k h
    rw [hvis s]
    by_cases hres : (s.vis.findById k).isSome = true
    · obtain ⟨it, hit⟩ := Option.isSome_iff_exists.mp hres
      rw [updateStep_found_visitCounts s.vis k it hg hk hit]
      unfold bumpCount
      by_cases hjk : j = k
      · subst hjk
        rw [if_pos rfl, if_pos ⟨hres, rfl⟩]
      · rw [if_neg hjk,
            if_neg (fun hc => hjk (by injection hc.2 with hh; exact hh.symm))]
        simp
    · have hnone : s.vis.findById k = none := by
        cases hc : s.vis.findById k
        · rfl
        · rw [hc] at hres
          exact absurd rfl hres
      rw [updateStep_not_found _ _ hnone]
      by_cases hjk : j = k
      · subst hjk
        rw [if_neg (fun hc => hres hc.1)]
        simp
      · rw [if_neg (fun hc => hjk (by injection hc.2 with hh; exact hh.symm))]
        simp

theorem runStepEvents_visitCounts (L : List Step) :
    ∀ (s : AppState), s.vis.hasGraph = true → ∀ (j : String),
      (runStepEvents s L).vis.visitCounts j =
        s.vis.visitCounts j +
          (if (s.vis.findById j).isSome = true then
             L.countP (fun e => decide (stepEventId e = some j))
           else 0) := by
  induction L with
  | nil =>
    intro s hg j
    simp [runStepEvents]
  | cons e L ih =>
    intro s hg j
    have hstep : runStepEvents s (e :: L) =
        runStepEvents (handleStepStartMessage s e) L := rfl
    rw [hstep,
        ih (handleStepStartMessage s e) (by rw [handleStepStart_hasGraph]; exact hg) j,
        handleStepStart_findById_isSome, handleStepStart_visitCounts s hg e j,
        List.countP_cons]
    by_cases hres : (s.vis.findById j).isSome = true
    · by_cases hev : stepEventId e = some j
      · simp only [hres, hev, and_self, if_true, decide_eq_true_eq, if_pos]
        omega
      · simp [hres, hev]
    · simp [hres]

/-! ### Remaining shared helper lemmas -/

theorem renderGraph_visitCounts (st : VisualizerState) :
    (GraphVisualizer.renderGraph st).visitCounts = st.visitCounts := by
  unfold GraphVisualizer.renderGraph
  by_cases h : (!st.hasGraph || st.models.isEmpty) = true
  · rw [if_pos h]
  · rw [if_neg h]

theorem setModels_render (st : VisualizerState) (ms : List ModelContainer)
    (hg : st.hasGraph = true) (hms : ms ≠ []) :
    GraphVisualizer.setModels st ms =
      { hasGraph := true, models := ms
        rendered := renderItems (GraphVisualizer.convertModelsToG6Data ms)
        visitCounts := fun _ => 0, currentStepId := none
        failedStepId := none } := by
  have hEmpty : ms.isEmpty = false := by
    cases ms
    · exact absurd rfl hms
    · rfl
  unfold GraphVisualizer.setModels GraphVisualizer.renderGraph
  simp only [hg, hEmpty, Bool.not_true, Bool.or_self]
  rw [if_neg (by simp)]

/-! ### Claim theorems -/

/-- C9: an unparseable inbound payload (the `none` case of the try/catch
around `JSON.parse`) is logged and discarded with no state change; a parsed
message whose type has no registered handler is logged and otherwise ignored;
in neither case is an error raised (the embedded handler chain is total) or
the processing of subsequent messages affected. -/
theorem malformed_and_unknown_messages_ignored :
    (∀ s : AppState, WebSocketClient.processPayload s none = s) ∧
    (∀ (s : AppState) (t : String),
       WebSocketClient.processPayload s (some (.other t)) = s) ∧
    (∀ (s : AppState) (t : String) (p : Option InMessage),
       WebSocketClient.processPayload
           (WebSocketClient.processPayload s (some (.other t))) p =
         WebSocketClient.processPayload s p) :=
  ⟨fun _ => rfl, fun _ _ => rfl, fun _ _ _ => rfl⟩

/-- C10: an inbound start message with no `models` field, or with an empty
`models` array, does not reset or replace anything: the guard
`message.models && message.models.length > 0` fails, `setModels` is never
invoked, and the previous run's graph, visit counts, current and failed step
ids all remain stored (and displayed). -/
theorem empty_start_message_preserves_state :
    ∀ s : AppState,
      (WebSocketClient.processPayload s (some (.start none))).vis = s.vis ∧
      (WebSocketClient.processPayload s (some (.start (some [])))).vis = s.vis :=
  fun _ => ⟨rfl, rfl⟩

/-- C7: from any state (in particular one in which an `end` event has been
processed), an inbound `start` message carrying a non-empty models array fully
resets the run state: the stored models and rendered graph are replaced
wholesale by the newly normalized models, all visit counts are zero and no
current or failed step id survives.  (A start message with an empty or absent
models array is instead a no-op on this state — that case is claim C10.) -/
theorem start_event_resets_run_state (s : AppState) (ms : List ModelContainer)
    (hg : s.vis.hasGraph = true) (hms : ms ≠ []) :
    (WebSocketClient.processPayload s (some (.start (some ms)))).vis.models = ms ∧
    (∀ i, (WebSocketClient.processPayload s
        (some (.start (some ms)))).vis.visitCounts i = 0) ∧
    (WebSocketClient.processPayload s
        (some (.start (some ms)))).vis.currentStepId = none ∧
    (WebSocketClient.processPayload s
        (some (.start (some ms)))).vis.failedStepId = none ∧
    (WebSocketClient.processPayload s (some (.start (some ms)))).vis.rendered =
      renderItems (GraphVisualizer.convertModelsToG6Data ms) := by
  have hlen : ms.length > 0 := List.length_pos.mpr hms
  have hvis : (WebSocketClient.processPayload s (some (.start (some ms)))).vis =
      GraphVisualizer.setModels s.vis ms := by
    show (handleStartMessage s (some ms)).vis = _
    rw [handleStartMessage_vis]
    show (if ms.length > 0 then GraphVisualizer.setModels s.vis ms else s.vis) = _
    rw [if_pos hlen]
  rw [hvis, setModels_render s.vis ms hg hms]
  exact ⟨rfl, fun _ => rfl, rfl, rfl, rfl⟩

/-- C7 witness: applied to a concrete stale state and the concrete model
`mdlRun`. -/
theorem start_event_resets_run_state_witness :
    appStale.vis.hasGraph = true ∧ ([mdlRun] : List ModelContainer) ≠ [] ∧
    ((WebSocketClient.processPayload appStale
        (some (.start (some [mdlRun])))).vis.models = [mdlRun] ∧
     (∀ i, (WebSocketClient.processPayload appStale
        (some (.start (some [mdlRun])))).vis.visitCounts i = 0) ∧
     (WebSocketClient.processPayload appStale
        (some (.start (some [mdlRun])))).vis.currentStepId = none ∧
     (WebSocketClient.processPayload appStale
        (some (.start (some [mdlRun])))).vis.failedStepId = none ∧
     (WebSocketClient.processPayload appStale
        (some (.start (some [mdlRun])))).vis.rendered =
       renderItems (GraphVisualizer.convertModelsToG6Data [mdlRun])) :=
  ⟨rfl, by decide, start_event_resets_run_state appStale [mdlRun] rfl (by decide)⟩

/-- C2 counterexample: on the reachable state right after a run start (the
graph holds elements A, B and go), `markElementAsFailed "X"` with an
identifier that does not resolve is NOT a complete no-op: the source assigns
`this.failedStepId = elementId` before the `findById` check, so the
unresolvable identifier is stored in `failedStepId`. -/
theorem markElementAsFailed_stores_unresolved_id :
    appStarted.vis.findById "X" = none ∧
    appStarted.vis.failedStepId = none ∧
    (GraphVisualizer.markElementAsFailed appStarted.vis "X").failedStepId =
      some "X" := by
  refine ⟨by decide, rfl, rfl⟩

/-- C2 (amended): an update with an unresolvable identifier never throws;
`updateStep` is then a complete no-op, while `markElementAsFailed` still
assigns the unresolved identifier to `failedStepId` (its only change).
Consequently, on every reachable state, every identifier stored in
`visitCounts` or `currentStepId` resolves to an element of the graph —
`failedStepId`, however, may hold an unresolved identifier. -/
theorem unresolved_update_noop_and_stored_ids_resolve :
    (∀ (st : VisualizerState) (id : String), st.findById id = none →
       GraphVisualizer.updateStep st id = (st, [])) ∧
    (∀ (st : VisualizerState) (id : String), st.findById id = none →
       GraphVisualizer.markElementAsFailed st id =
         { st with failedStepId := some id }) ∧
    (∀ s : AppState, Reachable s →
       (∀ i, 0 < s.vis.visitCounts i → (s.vis.findById i).isSome = true) ∧
       (∀ c, s.vis.currentStepId = some c →
          (s.vis.findById c).isSome = true)) := by
  refine ⟨?_, ?_, ?_⟩
  · exact fun st id h => updateStep_not_found st id h
  · intro st id h
    show ({ st with failedStepId := some id } : VisualizerState).applyStyle
        id failUpdNode failUpdEdge = _
    unfold VisualizerState.applyStyle
    rw [show ({ st with failedStepId := some id } : VisualizerState).findById id =
          none from h]
  · intro s hs
    obtain ⟨_, h2, h3, _⟩ := reachable_inv s hs
    exact ⟨h2, fun c hc => (h3 c hc).2⟩

/-- C2 witness: the amended theorem applied to the concrete reachable states
`appStarted` (for the no-op and failedStepId parts, with the unresolvable
identifier X) and `appVisitedA` (for the stored-identifier invariant, with the
visited element A). -/
theorem unresolved_update_noop_and_stored_ids_resolve_witness :
    GraphVisualizer.updateStep appStarted.vis "X" = (appStarted.vis, []) ∧
    GraphVisualizer.markElementAsFailed appStarted.vis "X" =
      { appStarted.vis with failedStepId := some "X" } ∧
    ((appVisitedA.vis.findById "A").isSome = true) := by
  have r1 : Reachable appStarted :=
    Reachable.step initialApp (some (.start (some [mdlRun]))) Reachable.init
  have r2 : Reachable appVisitedA :=
    Reachable.step appStarted (some (.stepStart { id := some "A" })) r1
  exact ⟨unresolved_update_noop_and_stored_ids_resolve.1 appStarted.vis "X" (by decide),
         unresolved_update_noop_and_stored_ids_resolve.2.1 appStarted.vis "X" (by decide),
         (unresolved_update_noop_and_stored_ids_resolve.2.2 appVisitedA r2).1 "A"
           (by decide)⟩

/-- C3: on every reachable state at most one element carries the "current"
highlight (any two highlighted rendered items have the same identifier), and
on every successful visit of a resolvable element while a previous current
element exists, the emitted `highlightElement` call sequence is exactly
un-highlight the previous element (`on = false`) followed by highlighting the
new one (`on = true`) — never two simultaneous `on = true` calls for distinct
elements, and the un-highlight strictly precedes the highlight. -/
theorem single_current_highlight (s : AppState) (hs : Reachable s) :
    (∀ a ∈ s.vis.rendered, ∀ b ∈ s.vis.rendered,
       a.shadowOn = true → b.shadowOn = true → a.id = b.id) ∧
    (∀ (stepId prev : String), s.vis.currentStepId = some prev →
       (s.vis.findById stepId).isSome = true → stepId.isEmpty = false →
       (GraphVisualizer.updateStep s.vis stepId).2 =
         [(prev, false), (stepId, true)]) := by
  obtain ⟨hg, _, hcur, hHL⟩ := reachable_inv s hs
  constructor
  · intro a ha b hb hsa hsb
    have h1 := hHL a ha hsa
    have h2 := hHL b hb hsb
    rw [h1] at h2
    injection h2
  · intro stepId prev hprev hfound hne
    obtain ⟨it, hit⟩ := Option.isSome_iff_exists.mp hfound
    rw [updateStep_found_calls s.vis stepId it hg hne hit]
    have htr : strTruthy s.vis.currentStepId = true := by
      rw [hprev]
      simp [strTruthy, (hcur prev hprev).1]
    rw [if_pos htr, hprev]
    rfl

/-- C3 witness: on the concrete reachable state with current element A,
visiting B emits exactly un-highlight A then highlight B. -/
theorem single_current_highlight_witness :
    (GraphVisualizer.updateStep appVisitedA.vis "B").2 =
      [("A", false), ("B", true)] := by
  have r1 : Reachable appStarted :=
    Reachable.step initialApp (some (.start (some [mdlRun]))) Reachable.init
  have r2 : Reachable appVisitedA :=
    Reachable.step appStarted (some (.stepStart { id := some "A" })) r1
  exact (single_current_highlight appVisitedA r2).2 "B" "A" (by decide) (by decide)
    (by decide)

/-- C1: starting from any fresh-run state (every visit count zero, exactly the
state produced by `setModels` or `clear`), after processing any sequence of
step-start events the stored visit count of each identifier that resolves in
the current graph equals the number of events dispatched with that identifier
(`step.id` when truthy, else `step.name` when truthy); an event whose
dispatched identifier does not resolve leaves every visit count unchanged;
and `setModels`/`clear` do reset every count to zero. -/
theorem visit_count_equals_event_count (s : AppState)
    (hg : s.vis.hasGraph = true) (h0 : ∀ i, s.vis.visitCounts i = 0)
    (L : List Step) :
    (∀ j : String, (s.vis.findById j).isSome = true →
       (runStepEvents s L).vis.visitCounts j =
         L.countP (fun e => decide (stepEventId e = some j))) ∧
    (∀ e : Step,
       (∀ j, stepEventId e = some j → (s.vis.findById j).isSome = false) →
       ∀ i, (handleStepStartMessage s e).vis.visitCounts i =
         s.vis.visitCounts i) ∧
    (∀ (st : VisualizerState) (ms : List ModelContainer) (i : String),
       (GraphVisualizer.setModels st ms).visitCounts i = 0) ∧
    (∀ (st : VisualizerState) (i : String),
       (GraphVisualizer.clear st).visitCounts i = 0) := by
  refine ⟨?_, ?_, ?_, ?_⟩
  · intro j hj
    rw [runStepEvents_visitCounts L s hg j, h0 j, if_pos hj]
    simp
  · intro e hunres i
    rw [handleStepStart_visitCounts s hg e i]
    by_cases hc : (s.vis.findById i).isSome = true ∧ stepEventId e = some i
    · obtain ⟨hc1, hc2⟩ := hc
      rw [hunres i hc2] at hc1
      exact Bool.noConfusion hc1
    · rw [if_neg hc]
      simp
  · intro st ms i
    rw [GraphVisualizer.setModels, renderGraph_visitCounts]
  · intro st i
    rfl

/-- C1 witness: on the concrete started run, the event list `eventsC1`
(A, the unresolvable X, B referenced by name, A again) leaves A with visit
count 2. -/
theorem visit_count_equals_event_count_witness :
    (runStepEvents appStarted eventsC1).vis.visitCounts "A" = 2 := by
  have h := (visit_count_equals_event_count appStarted rfl (fun _ => rfl)
      eventsC1).1 "A" (by decide)
  rw [h]
  decide

/-- C4 counterexample: for the concrete container `mC4`, whose single edge
declares the target `vX` matching no vertex of the sub-model, the conversion
does NOT exclude the edge: the edge list contains it, with the unresolved raw
reference `vX` used verbatim as the target. -/
theorem unresolvable_edge_not_excluded :
    (GraphVisualizer.convertModelsToG6Data [mC4]).2 =
      [{ id := "go", source := "A", target := "vX", label := "go"
         originalId := "e1", modelName := "M" }] ∧
    ((GraphVisualizer.convertModelsToG6Data [mC4]).2).length ≠ 0 := by
  exact ⟨by decide, by decide⟩

/-- C4 (amended): an edge whose `sourceVertexId`/`targetVertexId` matches no
vertex of its sub-model is NOT excluded from the produced edge list:
conversion keeps every declared edge (the output edge count equals the input
edge count, and each input edge's conversion is a member of the output), and
an unresolvable endpoint reference is used verbatim as the produced
`source`/`target`; processing such an edge does not throw (the embedded
conversion is total — the source guards every access with `?.` and `||`). -/
theorem edges_never_dropped :
    (∀ models : List ModelContainer,
       ((GraphVisualizer.convertModelsToG6Data models).2).length =
         numInputEdges models) ∧
    (∀ models : List ModelContainer, ∀ c ∈ models, ∀ sm ∈ c.actualModels,
       ∀ e ∈ sm.edges.getD [],
         convertEdge (jsOr c.name "default") sm e ∈
           (GraphVisualizer.convertModelsToG6Data models).2) ∧
    (∀ (mn : String) (sm : SubModel) (e : EdgeDef),
       ((sm.vertices.getD []).find? fun v => v.id == e.sourceVertexId) = none →
       (convertEdge mn sm e).source = e.sourceVertexId) ∧
    (∀ (mn : String) (sm : SubModel) (e : EdgeDef),
       ((sm.vertices.getD []).find? fun v => v.id == e.targetVertexId) = none →
       (convertEdge mn sm e).target = e.targetVertexId) := by
  refine ⟨?_, ?_, ?_, ?_⟩
  · intro models
    show (models.flatMap _).length = _
    rw [List.length_flatMap]
    unfold numInputEdges
    refine congrArg List.sum (List.map_congr_left fun c _ => ?_)
    show (c.actualModels.flatMap _).length = _
    rw [List.length_flatMap]
    refine congrArg List.sum (List.map_congr_left fun sm _ => ?_)
    show (List.map _ (sm.edges.getD [])).length = _
    rw [List.length_map]
  · intro models c hcmem sm hsm e he
    show convertEdge (jsOr c.name "default") sm e ∈ models.flatMap _
    exact List.mem_flatMap.mpr
      ⟨c, hcmem, List.mem_flatMap.mpr
        ⟨sm, hsm, List.mem_map.mpr ⟨e, he, rfl⟩⟩⟩
  · intro mn sm e h
    simp [convertEdge, h, jsOr]
  · intro mn sm e h
    simp [convertEdge, h, jsOr]

/-- C4 witness: the amended theorem applied to the concrete model `mC4` and
its unresolvable edge. -/
theorem edges_never_dropped_witness :
    ((GraphVisualizer.convertModelsToG6Data [mC4]).2).length =
      numInputEdges [mC4] ∧
    (convertEdge "M" smC4
        { id := "e1", name := some "go"
          sourceVertexId := "v1", targetVertexId := "vX" }).target = "vX" := by
  refine ⟨edges_never_dropped.1 [mC4], ?_⟩
  exact edges_never_dropped.2.2.2 "M" smC4
    { id := "e1", name := some "go", sourceVertexId := "v1", targetVertexId := "vX" }
    (by decide)

/-- C5 counterexample: for the concrete named sub-model `mC5` (name "M"),
normalizing the flat container `[m]` differs from normalizing the wrapped
container `[{models: [m]}]`: the flat form stamps `modelName = "M"` on the
produced node, the wrapped form stamps `modelName = "default"` (the wrapper
has no name). -/
theorem normalize_wrapped_modelName_differs :
    GraphVisualizer.convertModelsToG6Data [mC5.asContainer] ≠
      GraphVisualizer.convertModelsToG6Data [wrapContainer mC5] := by
  decide

/-- Normal form of the flat normalization `normalize([m])`: nodes and edges
mapped with `modelName = m.name || 'default'`. -/
theorem convert_flat (m : SubModel) :
    GraphVisualizer.convertModelsToG6Data [m.asContainer] =
      ((m.vertices.getD []).map (convertVertex (jsOr m.name "default")),
       (m.edges.getD []).map (convertEdge (jsOr m.name "default") m)) := by
  rcases m with ⟨mn, mv, me⟩
  simp [GraphVisualizer.convertModelsToG6Data, SubModel.asContainer,
        ModelContainer.actualModels, ModelContainer.asSubModel]

/-- Normal form of the wrapped normalization `normalize([{models: [m]}])`:
the same nodes and edges, but with the anonymous wrapper's
`modelName = 'default'`. -/
theorem convert_wrapped (m : SubModel) :
    GraphVisualizer.convertModelsToG6Data [wrapContainer m] =
      ((m.vertices.getD []).map (convertVertex "default"),
       (m.edges.getD []).map (convertEdge "default" m)) := by
  simp [GraphVisualizer.convertModelsToG6Data, wrapContainer,
        ModelContainer.actualModels, jsOr]

/-- C5 (amended): normalizing `[m]` and `[{models: [m]}]` produce the same
nodes and edges in every field EXCEPT `modelName`: the flat form uses
`m.name || 'default'` while the wrapped form uses the anonymous wrapper's
name, i.e. `'default'`; and the two outputs are fully equal if and only if
`m.name || 'default'` is itself `'default'` (in particular whenever `m` has
no usable name) or the sub-model produces no nodes and no edges at all, so
that there is no `modelName` field to differ. -/
theorem normalize_wrap_agrees_up_to_modelName (m : SubModel) :
    GraphVisualizer.convertModelsToG6Data [wrapContainer m] =
      setDefaultModelName
        (GraphVisualizer.convertModelsToG6Data [m.asContainer]) ∧
    (GraphVisualizer.convertModelsToG6Data [m.asContainer] =
        GraphVisualizer.convertModelsToG6Data [wrapContainer m] ↔
      (jsOr m.name "default" = "default" ∨
        (m.vertices.getD [] = [] ∧ m.edges.getD [] = []))) := by
  constructor
  · rcases m with ⟨mname, mverts, medges⟩
    simp [GraphVisualizer.convertModelsToG6Data, setDefaultModelName,
          wrapContainer, SubModel.asContainer, ModelContainer.actualModels,
          ModelContainer.asSubModel, convertVertex, convertEdge, jsOr,
          List.map_map, Function.comp]
  · rw [convert_flat m, convert_wrapped m]
    constructor
    · intro heq
      rw [Prod.mk.injEq] at heq
      obtain ⟨heqn, heqe⟩ := heq
      by_cases hn : jsOr m.name "default" = "default"
      · exact Or.inl hn
      · refine Or.inr ⟨?_, ?_⟩
        · cases hv : m.vertices.getD [] with
          | nil => rfl
          | cons v rest =>
            exfalso
            rw [hv] at heqn
            simp only [List.map_cons] at heqn
            injection heqn with hhead _
            have hmn := congrArg G6Node.modelName hhead
            exact hn (by simpa [convertVertex] using hmn)
        · cases he : m.edges.getD [] with
          | nil => rfl
          | cons e rest =>
            exfalso
            rw [he] at heqe
            simp only [List.map_cons] at heqe
            injection heqe with hhead _
            have hmn := congrArg G6Edge.modelName hhead
            exact hn (by simpa [convertEdge] using hmn)
    · intro h
      rcases h with hn | ⟨hv, he⟩
      · rw [hn]
      · rw [hv, he]
        simp

/-- C5 witness: the amended theorem applied to the concrete unnamed sub-model
`mC5w` (the name condition holds) and the named but empty sub-model `mC5e`
(the empty condition holds); in both cases the two normalizations agree
exactly. -/
theorem normalize_wrap_agrees_up_to_modelName_witness :
    GraphVisualizer.convertModelsToG6Data [wrapContainer mC5w] =
      setDefaultModelName
        (GraphVisualizer.convertModelsToG6Data [mC5w.asContainer]) ∧
    GraphVisualizer.convertModelsToG6Data [mC5w.asContainer] =
      GraphVisualizer.convertModelsToG6Data [wrapContainer mC5w] ∧
    GraphVisualizer.convertModelsToG6Data [mC5e.asContainer] =
      GraphVisualizer.convertModelsToG6Data [wrapContainer mC5e] :=
  ⟨(normalize_wrap_agrees_up_to_modelName mC5w).1,
   (normalize_wrap_agrees_up_to_modelName mC5w).2.mpr (Or.inl rfl),
   (normalize_wrap_agrees_up_to_modelName mC5e).2.mpr (Or.inr ⟨rfl, rfl⟩)⟩

/-- C8 counterexample: on the concrete reachable run, after an error marks
element A failed (fill `#ef4444`), a later `step-start` visiting A itself
recolors A with the visit-count scale color — the failure color does NOT
persist until the next full graph rebuild. -/
theorem failure_color_overwritten_by_revisit :
    (appFailedA.vis.findById "A").map RenderedItem.fill = some "#ef4444" ∧
    (appRevisitA.vis.findById "A").map RenderedItem.fill =
      some "rgb(170, 232, 205)" ∧
    ("rgb(170, 232, 205)" : String) ≠ "#ef4444" := by
  exact ⟨by decide, by decide, by decide⟩

/-- C8 (amended): `markElementAsFailed` applies the fixed failure colors
(`#ef4444`/`#dc2626` for a node, `#ef4444` for an edge), independent of the
visit counts and of the visit color scale; that color survives every later
highlight (which never touches fill or stroke) and every later visit of a
DIFFERENT element, until the next full graph rebuild (which resets all
styles) — but a later visit of the failed element itself re-applies the
visit-count color, overwriting the failure color (the counterexample). -/
theorem failure_color_persistence :
    (∀ (st : VisualizerState) (A : String) (it : RenderedItem),
       st.findById A = some it → it.isNode = true →
       ∀ b ∈ (GraphVisualizer.markElementAsFailed st A).rendered,
         b.id = A → b.fill = "#ef4444" ∧ b.stroke = "#dc2626") ∧
    (∀ (st : VisualizerState) (A : String) (it : RenderedItem),
       st.findById A = some it → it.isNode = false →
       ∀ b ∈ (GraphVisualizer.markElementAsFailed st A).rendered,
         b.id = A → b.stroke = "#ef4444" ∧ b.fill = "#ef4444") ∧
    (∀ (st : VisualizerState) (e x : String) (highlight : Bool),
       (GraphVisualizer.highlightElement st e highlight).styleOf x =
         st.styleOf x) ∧
    (∀ (st : VisualizerState) (A k : String), A ≠ k →
       ((GraphVisualizer.updateStep st k).1).styleOf A = st.styleOf A) ∧
    (∀ (st : VisualizerState) (ms : List ModelContainer),
       st.hasGraph = true → ms ≠ [] →
       (GraphVisualizer.setModels st ms).rendered =
         renderItems (GraphVisualizer.convertModelsToG6Data ms)) := by
  refine ⟨?_, ?_, ?_, ?_, ?_⟩
  · intro st A it hfind hn b hb hbid
    have hrend : (GraphVisualizer.markElementAsFailed st A).rendered =
        updateItems A failUpdNode st.rendered := by
      show (({ st with failedStepId := some A } : VisualizerState).applyStyle
          A failUpdNode failUpdEdge).rendered = _
      unfold VisualizerState.applyStyle
      rw [show ({ st with failedStepId := some A } : VisualizerState).findById A =
            some it from hfind]
      simp [hn]
    rw [hrend] at hb
    obtain ⟨a, _, rfl⟩ := mem_updateItems A failUpdNode st.rendered b hb
    by_cases hid : a.id = A
    · simp [hid, failUpdNode]
    · rw [if_neg (by simp [hid])] at hbid
      exact absurd hbid hid
  · intro st A it hfind hn b hb hbid
    have hrend : (GraphVisualizer.markElementAsFailed st A).rendered =
        updateItems A failUpdEdge st.rendered := by
      show (({ st with failedStepId := some A } : VisualizerState).applyStyle
          A failUpdNode failUpdEdge).rendered = _
      unfold VisualizerState.applyStyle
      rw [show ({ st with failedStepId := some A } : VisualizerState).findById A =
            some it from hfind]
      simp [hn]
    rw [hrend] at hb
    obtain ⟨a, _, rfl⟩ := mem_updateItems A failUpdEdge st.rendered b hb
    by_cases hid : a.id = A
    · simp [hid, failUpdEdge]
    · rw [if_neg (by simp [hid])] at hbid
      exact absurd hbid hid
  · intro st e x highlight
    exact highlightElement_styleOf st e x highlight
  · intro st A k hAk
    exact updateStep_fst_styleOf_ne st k A hAk
  · intro st ms hg hms
    rw [setModels_render st ms hg hms]

/-- C8 witness: the amended theorem applied to concrete states — fixed node
failure colors on the started run, color preservation of the failed A under a
visit of B, and the full style reset of a rebuild. -/
theorem failure_color_persistence_witness :
    (∀ b ∈ (GraphVisualizer.markElementAsFailed appStarted.vis "A").rendered,
       b.id = "A" → b.fill = "#ef4444" ∧ b.stroke = "#dc2626") ∧
    ((GraphVisualizer.updateStep appFailedA.vis "B").1).styleOf "A" =
      appFailedA.vis.styleOf "A" ∧
    (GraphVisualizer.setModels appStale.vis [mdlRun]).rendered =
      renderItems (GraphVisualizer.convertModelsToG6Data [mdlRun]) :=
  ⟨failure_color_persistence.1 appStarted.vis "A"
     { id := "A", isNode := true, fill := "#ffffff", stroke := "#5B8FF9"
       lineWidth := 2, shadowOn := false } (by decide) rfl,
   failure_color_persistence.2.2.2.1 appFailedA.vis "A" "B" (by decide),
   failure_color_persistence.2.2.2.2 appStale.vis [mdlRun] rfl (by decide)⟩

/-- C6: the coverage percentage rule — `coveragePercent` (modelled from the
spec, since the aggregation happens upstream of this repository) is `0` when
the total is `0` (no division by zero) and the half-up rounding of
`visited / total × 100` when the total is positive; and `updateStatistics`
displays any two such figures through the identical `value || 0` + `%` code
path for the edge and the vertex field, so the same rounding rule reaches
both displayed figures. -/
theorem coveragePercent_round_and_display :
    (∀ visited total : Nat, visited ≤ total →
       (total = 0 → coveragePercent visited total = 0) ∧
       (0 < total →
         (coveragePercent visited total : ℤ) =
           round ((visited : ℚ) / (total : ℚ) * 100))) ∧
    (∀ (ui : UIState) (stats : Statistics) (p q : Nat),
       (UIManager.updateStatistics ui
           { stats with edgeCoverage := some p
                        vertexCoverage := some q }).statsEdgeCoverage =
         toString p ++ "%" ∧
       (UIManager.updateStatistics ui
           { stats with edgeCoverage := some p
                        vertexCoverage := some q }).statsVertexCoverage =
         toString q ++ "%") := by
  constructor
  · intro visited total _
    constructor
    · intro h
      simp [coveragePercent, h]
    · intro ht
      have hne : total ≠ 0 := ht.ne'
      unfold coveragePercent
      rw [if_neg hne]
      have ht' : (total : ℚ) ≠ 0 := Nat.cast_ne_zero.mpr hne
      have key : (visited : ℚ) / (total : ℚ) * 100 + 1 / 2 =
          ((200 * visited + total : ℕ) : ℚ) / ((2 * total : ℕ) : ℚ) := by
        push_cast
        field_simp
        ring
      have h1 : ⌊((200 * visited + total : ℕ) : ℚ) /
            ((2 * total : ℕ) : ℚ)⌋₊ = (200 * visited + total) / (2 * total) := by
        rw [Nat.floor_div_nat, Nat.floor_natCast]
      have h2 : (0 : ℚ) ≤ ((200 * visited + total : ℕ) : ℚ) /
          ((2 * total : ℕ) : ℚ) := by positivity
      rw [round_eq, key, ← h1, ← Int.floor_toNat,
          Int.toNat_of_nonneg (Int.floor_nonneg.mpr h2)]
  · intro ui stats p q
    exact ⟨rfl, rfl⟩

/-- C6 witness: concrete figures — 1 of 3 rounds to 33, a zero total yields 0
without dividing, and the concrete display carries the `%` suffix on both
fields. -/
theorem coveragePercent_round_and_display_witness :
    ((coveragePercent 1 3 : ℤ) = round ((1 : ℚ) / (3 : ℚ) * 100)) ∧
    coveragePercent 0 0 = 0 ∧
    (UIManager.updateStatistics {}
        { edgeCoverage := some 33, vertexCoverage := some 67 }).statsEdgeCoverage =
      toString 33 ++ "%" ∧
    (UIManager.updateStatistics {}
        { edgeCoverage := some 33, vertexCoverage := some 67 }).statsVertexCoverage =
      toString 67 ++ "%" :=
  ⟨(coveragePercent_round_and_display.1 1 3 (by decide)).2 (by decide),
   (coveragePercent_round_and_display.1 0 0 (by decide)).1 rfl,
   (coveragePercent_round_and_display.2 {} {} 33 67).1,
   (coveragePercent_round_and_display.2 {} {} 33 67).2⟩
